import Mathlib

/-!
Verification development for the AnnotaLoop repository.

Shallow embedding of the storage-facing code:
  - src/utils/secureStorage.ts  (secure key-value store wrapper, security state)
  - the AppContext provider (state initializers, persistence effects,
    loadSecurity, lockApp, unlockApp)
  - src/UpdaterBanner.tsx parseError and the About modal parseInstallError

Stores are modelled as functions from keys to optional values.  A JS value
held in the Tauri secure store is modelled by SVal (string, boolean or null);
an absent key is Option.none, mirroring undefined.  Store operations that can
fail in the runtime are given the outcome of the underlying store access as
an Except argument; the .error case models a thrown store access, which the
wrappers catch.
-/

/-- A JS value stored in the secure store: string, boolean, or null. -/
inductive SVal where
  | str : String → SVal
  | bool : Bool → SVal
  | null : SVal
deriving DecidableEq

/-- The secure store contents: key to stored value, none for an absent key. -/
abbrev SecureStore := String → Option SVal

/-- store.set: replace or create the binding of one key. -/
def svSet (store : SecureStore) (k : String) (v : SVal) : SecureStore :=
  fun q => if q = k then some v else store q

/-- store.delete: remove the binding of one key. -/
def svDelete (store : SecureStore) (k : String) : SecureStore :=
  fun q => if q = k then none else store q

/-- A typed read: store.get of a boolean key; a missing key, a stored
null, or a value of another type reads as undefined. -/
def svGetBool (store : SecureStore) (k : String) : Option Bool :=
  match store k with
  | some (SVal.bool b) => some b
  | _ => none

/-- A typed read: store.get of a string key. -/
def svGetStr (store : SecureStore) (k : String) : Option String :=
  match store k with
  | some (SVal.str s) => some s
  | _ => none

/-- saveApiKey: store.set of the key apikey_provider, then store.save.
The catch clause rethrows, so only the successful path has an effect. -/
def saveApiKey (provider apiKey : String) (store : SecureStore) : SecureStore :=
  svSet store ("apikey_" ++ provider) (SVal.str apiKey)

/-- getApiKey: returns the raw stored value with null and undefined both
collapsed to null by the nullish coalescing; on a store failure the catch
clause returns null.  none models the JS null result. -/
def getApiKey (st : Except Unit SecureStore) (provider : String) : Option SVal :=
  match st with
  | Except.error _ => none
  | Except.ok store =>
    match store ("apikey_" ++ provider) with
    | some SVal.null => none
    | some v => some v
    | none => none

/-- deleteApiKey: store.delete of the key apikey_provider. -/
def deleteApiKey (provider : String) (store : SecureStore) : SecureStore :=
  svDelete store ("apikey_" ++ provider)

/-- hasApiKey: true when the stored value is neither null nor undefined;
false when the store access fails. -/
def hasApiKey (st : Except Unit SecureStore) (provider : String) : Bool :=
  match st with
  | Except.error _ => false
  | Except.ok store =>
    match store ("apikey_" ++ provider) with
    | some SVal.null => false
    | some _ => true
    | none => false

/-- saveBaseUrl: store.set of the key baseurl_provider. -/
def saveBaseUrl (provider baseUrl : String) (store : SecureStore) : SecureStore :=
  svSet store ("baseurl_" ++ provider) (SVal.str baseUrl)

/-- getBaseUrl: like getApiKey on the key baseurl_provider. -/
def getBaseUrl (st : Except Unit SecureStore) (provider : String) : Option SVal :=
  match st with
  | Except.error _ => none
  | Except.ok store =>
    match store ("baseurl_" ++ provider) with
    | some SVal.null => none
    | some v => some v
    | none => none

/-- clearSecureStorage: store.clear removes every binding. -/
def clearSecureStorage (_store : SecureStore) : SecureStore :=
  fun _ => none

/-- The SecurityState record of secureStorage.ts. -/
structure SecurityState where
  enabled : Bool
  pin : String
  secret : String
  locked : Bool
deriving DecidableEq

/-- DEFAULT_SECURITY of secureStorage.ts. -/
def DEFAULT_SECURITY : SecurityState :=
  { enabled := false
    pin := "1234"
    secret := "A7X9-B2M4-L8Q1"
    locked := false }

/-- saveSecurityState: writes security_enabled, security_pin and
security_secret from the record; the locked field is deliberately not
persisted (source comment at secureStorage.ts line 200). -/
def saveSecurityState (security : SecurityState) (store : SecureStore) : SecureStore :=
  svSet (svSet (svSet store
      "security_enabled" (SVal.bool security.enabled))
      "security_pin" (SVal.str security.pin))
      "security_secret" (SVal.str security.secret)

/-- loadSecurityState: reads the three security keys; when security_enabled
is null or undefined the whole default record is returned; otherwise pin and
secret fall back to their defaults individually and locked is set to the
enabled flag.  A thrown store access is caught and yields the defaults. -/
def loadSecurityState (st : Except Unit SecureStore) : SecurityState :=
  match st with
  | Except.error _ => DEFAULT_SECURITY
  | Except.ok store =>
    match svGetBool store "security_enabled" with
    | none => DEFAULT_SECURITY
    | some enabled =>
      { enabled := enabled
        pin := (svGetStr store "security_pin").getD DEFAULT_SECURITY.pin
        secret := (svGetStr store "security_secret").getD DEFAULT_SECURITY.secret
        locked := enabled }

/-- clearSecurityState: deletes the three security keys. -/
def clearSecurityState (store : SecureStore) : SecureStore :=
  svDelete (svDelete (svDelete store "security_enabled") "security_pin") "security_secret"

/-!  JSON values.  localStorage holds JSON text; JSON.stringify and
JSON.parse are modelled as the encode and decode functions between the
typed records below and this value type, so a localStorage cell holds a
Json value. -/

/-- A JSON value, restricted to the shapes this program stores. -/
inductive Json where
  | jstr : String → Json
  | jnum : Nat → Json
  | jarr : List Json → Json
  | jobj : List (String × Json) → Json

/-- Field lookup in a JSON object. -/
def jlookup (j : Json) (k : String) : Option Json :=
  match j with
  | Json.jobj fields => List.lookup k fields
  | _ => none

/-- Read a JSON value as a string. -/
def jAsStr (j : Json) : Option String :=
  match j with
  | Json.jstr s => some s
  | _ => none

/-- Read a JSON value as a number. -/
def jAsNum (j : Json) : Option Nat :=
  match j with
  | Json.jnum n => some n
  | _ => none

/-- Decode every element of a JSON array, failing when any element fails. -/
def decodeList {α : Type} (f : Json → Option α) : List Json → Option (List α)
  | [] => some []
  | j :: js => do
    let a ← f j
    let t ← decodeList f js
    pure (a :: t)

/-- Read a JSON value as an array of strings. -/
def jAsStrList (j : Json) : Option (List String) :=
  match j with
  | Json.jarr js => decodeList jAsStr js
  | _ => none

/-- Modelled from the spec: Project is a plain record with identifying
fields (types.ts and defaults.ts are not part of the excerpt).  The claims
depend only on it being a serializable record with an id. -/
structure Project where
  id : Nat
  name : String
deriving DecidableEq

/-- Modelled from the spec: Document is a plain record referencing its
parent Project by id. -/
structure Document where
  id : Nat
  projectId : Nat
  name : String
deriving DecidableEq

def Project.encode (p : Project) : Json :=
  Json.jobj [("id", Json.jnum p.id), ("name", Json.jstr p.name)]

def Project.decode (j : Json) : Option Project := do
  let i ← (jlookup j "id").bind jAsNum
  let n ← (jlookup j "name").bind jAsStr
  pure { id := i, name := n }

def encodeProjects (ps : List Project) : Json :=
  Json.jarr (ps.map Project.encode)

def decodeProjects (j : Json) : Option (List Project) :=
  match j with
  | Json.jarr js => decodeList Project.decode js
  | _ => none

def Document.encode (d : Document) : Json :=
  Json.jobj [("id", Json.jnum d.id), ("projectId", Json.jnum d.projectId),
             ("name", Json.jstr d.name)]

def Document.decode (j : Json) : Option Document := do
  let i ← (jlookup j "id").bind jAsNum
  let pid ← (jlookup j "projectId").bind jAsNum
  let n ← (jlookup j "name").bind jAsStr
  pure { id := i, projectId := pid, name := n }

def encodeDocuments (ds : List Document) : Json :=
  Json.jarr (ds.map Document.encode)

def decodeDocuments (j : Json) : Option (List Document) :=
  match j with
  | Json.jarr js => decodeList Document.decode js
  | _ => none

/-- Modelled from the spec: one provider entry of the nested
provider-configuration record (types.ts is not part of the excerpt): a model
list, an optional base URL, and an optional plaintext API key that the
one-time migration removes.  An absent field is none. -/
structure ProviderConfig where
  models : List String
  baseUrl : Option String
  apiKey : Option String
deriving DecidableEq

/-- Modelled from the spec: the SettingsState record, as initialized by the
AppProvider settings initializer: default provider and model plus the keyed
provider map, modelled as an association list since JSON objects are
key-value lists with unique keys. -/
structure SettingsState where
  defaultProvider : String
  defaultModel : String
  providers : List (String × ProviderConfig)
deriving DecidableEq

def ProviderConfig.encode (pc : ProviderConfig) : Json :=
  Json.jobj
    ([("models", Json.jarr (pc.models.map Json.jstr))]
      ++ (match pc.baseUrl with
          | some u => [("baseUrl", Json.jstr u)]
          | none => [])
      ++ (match pc.apiKey with
          | some k => [("apiKey", Json.jstr k)]
          | none => []))

def ProviderConfig.decode (j : Json) : Option ProviderConfig := do
  let ms ← (jlookup j "models").bind jAsStrList
  pure { models := ms
         baseUrl := (jlookup j "baseUrl").bind jAsStr
         apiKey := (jlookup j "apiKey").bind jAsStr }

def encodeSettings (s : SettingsState) : Json :=
  Json.jobj
    [("defaultProvider", Json.jstr s.defaultProvider),
     ("defaultModel", Json.jstr s.defaultModel),
     ("providers", Json.jobj (s.providers.map (fun e => (e.1, e.2.encode))))]

/-- Decode the entries of the providers object. -/
def decodeProviderList : List (String × Json) → Option (List (String × ProviderConfig))
  | [] => some []
  | e :: es => do
    let pc ← ProviderConfig.decode e.2
    let t ← decodeProviderList es
    pure ((e.1, pc) :: t)

def decodeProviders (j : Json) : Option (List (String × ProviderConfig)) :=
  match j with
  | Json.jobj fields => decodeProviderList fields
  | _ => none

def decodeSettings (j : Json) : Option SettingsState := do
  let dp ← (jlookup j "defaultProvider").bind jAsStr
  let dm ← (jlookup j "defaultModel").bind jAsStr
  let ps ← (jlookup j "providers").bind decodeProviders
  pure { defaultProvider := dp, defaultModel := dm, providers := ps }

/-- The inline settings default of the AppProvider settings initializer. -/
def defaultSettings : SettingsState :=
  { defaultProvider := "Mistral"
    defaultModel := ""
    providers :=
      [("mistral", { models := [], baseUrl := none, apiKey := none }),
       ("openai", { models := [], baseUrl := none, apiKey := none }),
       ("anthropic", { models := [], baseUrl := none, apiKey := none }),
       ("gemini", { models := [], baseUrl := none, apiKey := none }),
       ("openrouter", { models := [], baseUrl := none, apiKey := none }),
       ("ollama", { models := [], baseUrl := some "http://localhost:11434", apiKey := none }),
       ("lmstudio", { models := [], baseUrl := some "http://localhost:1234/v1", apiKey := none })] }

/-!  localStorage and sessionStorage.  localStorage cells hold JSON text,
modelled as Json values; the stored text of a Json value is never the empty
string, so a present cell is always truthy.  sessionStorage holds plain
strings. -/

abbrev LocalStorage := String → Option Json

abbrev SessionStorage := String → Option String

def lsSet (ls : LocalStorage) (k : String) (v : Json) : LocalStorage :=
  fun q => if q = k then some v else ls q

def lsRemove (ls : LocalStorage) (k : String) : LocalStorage :=
  fun q => if q = k then none else ls q

def ssSet (ss : SessionStorage) (k v : String) : SessionStorage :=
  fun q => if q = k then some v else ss q

def ssRemove (ss : SessionStorage) (k : String) : SessionStorage :=
  fun q => if q = k then none else ss q

/-- JS truthiness of a sessionStorage.getItem result: present and not the
empty string. -/
def ssTruthy (v : Option String) : Bool :=
  match v with
  | some s => !s.isEmpty
  | none => false

/-!  migrateApiKeys of secureStorage.ts.  The for-loop over the five
provider names is decomposed: the names are pairwise distinct and each
iteration touches only its own provider entry, so the stripped settings,
the migrated flag and the secure-store writes can each be computed from the
parsed settings directly. -/

/-- The provider list of migrateApiKeys. -/
def migratedProviders : List String :=
  ["openai", "anthropic", "mistral", "gemini", "openrouter"]

/-- JS truthiness of providerConfig?.apiKey: a present, non-empty key. -/
def truthyKey (k : Option String) : Bool :=
  match k with
  | some s => !s.isEmpty
  | none => false

/-- Update every entry of one provider name in the provider list. -/
def updateProvider (ps : List (String × ProviderConfig)) (name : String)
    (f : ProviderConfig → ProviderConfig) : List (String × ProviderConfig) :=
  ps.map (fun e => if e.1 = name then (e.1, f e.2) else e)

/-- One loop iteration of migrateApiKeys on the settings record: when the
looked-up provider has a truthy apiKey, delete it. -/
def stripStep (s : SettingsState) (p : String) : SettingsState :=
  match List.lookup p s.providers with
  | some pc =>
    if truthyKey pc.apiKey then
      { s with providers := updateProvider s.providers p (fun c => { c with apiKey := none }) }
    else s
  | none => s

/-- The settings record after the migration loop. -/
def stripApiKeys (s : SettingsState) : SettingsState :=
  migratedProviders.foldl stripStep s

/-- The migrated flag: some looped-over provider had a truthy apiKey. -/
def anyMigrated (s : SettingsState) : Bool :=
  migratedProviders.any (fun p => truthyKey ((List.lookup p s.providers).bind ProviderConfig.apiKey))

/-- One loop iteration of migrateApiKeys on the secure store: saveApiKey
when the looked-up provider has a truthy apiKey. -/
def migrateWriteStep (s : SettingsState) (acc : SecureStore) (p : String) : SecureStore :=
  match List.lookup p s.providers with
  | some pc =>
    if truthyKey pc.apiKey then saveApiKey p (pc.apiKey.getD "") acc else acc
  | none => acc

/-- The secure-store writes of the migration loop: saveApiKey for each
provider whose apiKey is truthy. -/
def migrateSecureWrites (s : SettingsState) (sec : SecureStore) : SecureStore :=
  migratedProviders.foldl (migrateWriteStep s) sec

/-- migrateApiKeys: parse the settings cell, move each truthy provider
apiKey into the secure store, and rewrite the settings cell only when
something migrated.  An absent or unparseable settings cell leaves both
stores unchanged (the code returns early when the cell or its providers
field is missing). -/
def migrateApiKeys (ls : LocalStorage) (sec : SecureStore) : LocalStorage × SecureStore :=
  match ls "settings" with
  | none => (ls, sec)
  | some j =>
    match decodeSettings j with
    | none => (ls, sec)
    | some s =>
      (if anyMigrated s then lsSet ls "settings" (encodeSettings (stripApiKeys s)) else ls,
       migrateSecureWrites s sec)

/-- migrateSecurityFromLocalStorage: removes the legacy localStorage cell
named security when present; the secure store is only read, never written. -/
def migrateSecurityFromLocalStorage (ls : LocalStorage) : LocalStorage :=
  match ls "security" with
  | some _ => lsRemove ls "security"
  | none => ls

/-!  The AppProvider of the AppContext (src/unnamed/part_000): state
initializers, persistence effects and the security actions. -/

/-- Modelled from the spec: initialProjects of defaults.ts is sample data
not in the excerpt; its value is irrelevant to every claim. -/
def initialProjects : List Project := []

/-- Modelled from the spec: initialDocuments of defaults.ts, as above. -/
def initialDocuments : List Document := []

/-- The projects initializer: parse the projects cell, else the default. -/
def initProjects (ls : LocalStorage) : List Project :=
  match ls "projects" with
  | some j => (decodeProjects j).getD initialProjects
  | none => initialProjects

/-- The documents initializer. -/
def initDocuments (ls : LocalStorage) : List Document :=
  match ls "documents" with
  | some j => (decodeDocuments j).getD initialDocuments
  | none => initialDocuments

/-- The settings initializer. -/
def initSettings (ls : LocalStorage) : SettingsState :=
  match ls "settings" with
  | some j => (decodeSettings j).getD defaultSettings
  | none => defaultSettings

/-- The isDark initializer: the theme cell equal to dark, or no theme cell
and the system prefers dark. -/
def initTheme (ls : LocalStorage) (prefersDark : Bool) : Bool :=
  match ls "theme" with
  | some (Json.jstr s) => s = "dark"
  | some _ => false
  | none => prefersDark

/-- isPinConfigured of loadSecurity (part_000 line 162): the pin is truthy,
differs from the default 1234, and has length 4. -/
def pinConfigured (pin : String) : Bool :=
  !pin.isEmpty && pin != "1234" && pin.length == 4

/-- loadSecurity of the AppProvider mount effect: load the stored security
state, then recompute locked from scratch: lock exactly when enabled, the
pin is custom, and the session is not marked unlocked. -/
def loadSecurity (store : SecureStore) (sessionUnlocked : Bool) : SecurityState :=
  let ls := loadSecurityState (Except.ok store)
  if ls.enabled && pinConfigured ls.pin && !sessionUnlocked then
    { ls with locked := true }
  else
    { ls with locked := false }

/-- The application state and stores the persistence effects act on. -/
structure AppPersist where
  projects : List Project
  documents : List Document
  settings : SettingsState
  security : SecurityState
  securityLoaded : Bool
  isDark : Bool
  lsStore : LocalStorage
  ssStore : SessionStorage
  secStore : SecureStore

/-- The projects persistence effect: full-snapshot serialization. -/
def persistProjects (st : AppPersist) : AppPersist :=
  { st with lsStore := lsSet st.lsStore "projects" (encodeProjects st.projects) }

/-- The documents persistence effect. -/
def persistDocuments (st : AppPersist) : AppPersist :=
  { st with lsStore := lsSet st.lsStore "documents" (encodeDocuments st.documents) }

/-- The settings persistence effect. -/
def persistSettings (st : AppPersist) : AppPersist :=
  { st with lsStore := lsSet st.lsStore "settings" (encodeSettings st.settings) }

/-- The theme persistence effect. -/
def persistTheme (st : AppPersist) : AppPersist :=
  { st with lsStore := lsSet st.lsStore "theme" (Json.jstr (if st.isDark then "dark" else "light")) }

/-- The security save effect: skipped until the initial load completes,
then a full saveSecurityState snapshot. -/
def securitySaveEffect (st : AppPersist) : AppPersist :=
  if st.securityLoaded then
    { st with secStore := saveSecurityState st.security st.secStore }
  else st

/-- unlockApp: clear locked and set the session flag unlocked. -/
def unlockApp (st : AppPersist) : AppPersist :=
  { st with security := { st.security with locked := false }
            ssStore := ssSet st.ssStore "unlocked" "true" }

/-- lockApp: set locked and remove the session flag unlocked. -/
def lockApp (st : AppPersist) : AppPersist :=
  { st with security := { st.security with locked := true }
            ssStore := ssRemove st.ssStore "unlocked" }

/-!  The two update-error classifiers.  Both receive a thrown value whose
message text is extracted first; the functions below take that message text
directly.  JS String.prototype.includes is substring containment. -/

/-- Substring containment, as JS includes: some suffix of s starts with
sub. -/
def strIncludes (s sub : String) : Bool :=
  s.toList.tails.any (fun t => sub.toList.isPrefixOf t)

/-- The UpdateError record of UpdaterBanner.tsx. -/
structure UpdateError where
  message : String
  details : String
  troubleshooting : List String
deriving DecidableEq

/-- parseError of UpdaterBanner.tsx: first-match substring classification
of the raw message. -/
def parseError (rawMessage : String) : UpdateError :=
  if strIncludes rawMessage "network" || strIncludes rawMessage "fetch"
      || strIncludes rawMessage "connection" then
    { message := "Network Error"
      details := "Could not connect to the update server."
      troubleshooting :=
        ["Check your internet connection",
         "Try disabling VPN or proxy",
         "Firewall may be blocking the connection"] }
  else if strIncludes rawMessage "signature" || strIncludes rawMessage "verify" then
    { message := "Signature Verification Failed"
      details := "The update package could not be verified."
      troubleshooting :=
        ["The update file may be corrupted",
         "Try again in a few minutes",
         "Download manually from GitHub releases"] }
  else if strIncludes rawMessage "permission" || strIncludes rawMessage "access denied"
      || strIncludes rawMessage "EPERM" then
    { message := "Permission Denied"
      details := "Cannot write to application directory."
      troubleshooting :=
        ["Close other instances of the app",
         "Run as administrator (Windows)",
         "Check disk space and permissions"] }
  else if strIncludes rawMessage "relaunch" || strIncludes rawMessage "restart" then
    { message := "Restart Failed"
      details := "Update installed but app restart failed."
      troubleshooting :=
        ["Manually close and reopen the app",
         "The update will apply on next launch"] }
  else
    { message := "Update Failed"
      details := if rawMessage.length > 100 then rawMessage.take 100 ++ "..." else rawMessage
      troubleshooting :=
        ["Try again in a few minutes",
         "Check your internet connection",
         "Download manually from GitHub releases"] }

/-- The InstallError record of the About modal. -/
structure InstallError where
  message : String
  details : String
  tips : List String
deriving DecidableEq

/-- parseInstallError of the About modal: like parseError but with no
restart branch and shorter tip lists. -/
def parseInstallError (rawMessage : String) : InstallError :=
  if strIncludes rawMessage "network" || strIncludes rawMessage "fetch"
      || strIncludes rawMessage "connection" then
    { message := "Network Error"
      details := "Could not download the update."
      tips := ["Check your internet connection", "Try disabling VPN or proxy"] }
  else if strIncludes rawMessage "signature" || strIncludes rawMessage "verify" then
    { message := "Verification Failed"
      details := "Update package could not be verified."
      tips := ["Try again in a few minutes", "Download from GitHub instead"] }
  else if strIncludes rawMessage "permission" || strIncludes rawMessage "EPERM" then
    { message := "Permission Denied"
      details := "Cannot write to application directory."
      tips := ["Close other instances", "Check disk permissions"] }
  else
    { message := "Install Failed"
      details := if rawMessage.length > 80 then rawMessage.take 80 ++ "..." else rawMessage
      tips := ["Try again later", "Download from GitHub releases"] }

/-- The five error categories named by the spec. -/
inductive ErrCategory where
  | network
  | verification
  | permission
  | restart
  | generic
deriving DecidableEq

/-- The category the banner classifier assigns to a message. -/
def bannerCategory (m : String) : ErrCategory :=
  if strIncludes m "network" || strIncludes m "fetch" || strIncludes m "connection" then
    ErrCategory.network
  else if strIncludes m "signature" || strIncludes m "verify" then
    ErrCategory.verification
  else if strIncludes m "permission" || strIncludes m "access denied"
      || strIncludes m "EPERM" then
    ErrCategory.permission
  else if strIncludes m "relaunch" || strIncludes m "restart" then
    ErrCategory.restart
  else
    ErrCategory.generic

/-- The category the About modal classifier assigns to a message; it has no
restart branch, so restart-like messages fall into generic. -/
def aboutCategory (m : String) : ErrCategory :=
  if strIncludes m "network" || strIncludes m "fetch" || strIncludes m "connection" then
    ErrCategory.network
  else if strIncludes m "signature" || strIncludes m "verify" then
    ErrCategory.verification
  else if strIncludes m "permission" || strIncludes m "EPERM" then
    ErrCategory.permission
  else
    ErrCategory.generic

/-- The fixed banner headline per category. -/
def bannerMessage : ErrCategory → String
  | ErrCategory.network => "Network Error"
  | ErrCategory.verification => "Signature Verification Failed"
  | ErrCategory.permission => "Permission Denied"
  | ErrCategory.restart => "Restart Failed"
  | ErrCategory.generic => "Update Failed"

/-- The fixed banner tip list per category. -/
def bannerTips : ErrCategory → List String
  | ErrCategory.network =>
    ["Check your internet connection", "Try disabling VPN or proxy",
     "Firewall may be blocking the connection"]
  | ErrCategory.verification =>
    ["The update file may be corrupted", "Try again in a few minutes",
     "Download manually from GitHub releases"]
  | ErrCategory.permission =>
    ["Close other instances of the app", "Run as administrator (Windows)",
     "Check disk space and permissions"]
  | ErrCategory.restart =>
    ["Manually close and reopen the app", "The update will apply on next launch"]
  | ErrCategory.generic =>
    ["Try again in a few minutes", "Check your internet connection",
     "Download manually from GitHub releases"]

/-- The fixed About modal headline per category; aboutCategory never yields
restart, so that row is the generic headline. -/
def aboutMessage : ErrCategory → String
  | ErrCategory.network => "Network Error"
  | ErrCategory.verification => "Verification Failed"
  | ErrCategory.permission => "Permission Denied"
  | ErrCategory.restart => "Install Failed"
  | ErrCategory.generic => "Install Failed"

/-- The fixed About modal tip list per category; the restart row is the
generic list since aboutCategory never yields restart. -/
def aboutTips : ErrCategory → List String
  | ErrCategory.network => ["Check your internet connection", "Try disabling VPN or proxy"]
  | ErrCategory.verification => ["Try again in a few minutes", "Download from GitHub instead"]
  | ErrCategory.permission => ["Close other instances", "Check disk permissions"]
  | ErrCategory.restart => ["Try again later", "Download from GitHub releases"]
  | ErrCategory.generic => ["Try again later", "Download from GitHub releases"]

/-!  Spec-side definitions.  These follow the words of the specification and
are compared against the embedded code.  -/

/-- Spec-side, for the load-time lock recomputation: pinIsCustom holds iff
the stored pin is a 4-character string different from 1234. -/
def pinIsCustomSpec (store : SecureStore) : Bool :=
  match svGetStr store "security_pin" with
  | some p => p.length == 4 && p != "1234"
  | none => false

/-- Spec-side formula for the locked flag recomputed at load time:
enabled, a custom stored pin, and no session unlock. -/
def lockedRecomputeSpec (store : SecureStore) (sessionUnlocked : Bool) : Bool :=
  (svGetBool store "security_enabled").getD false && pinIsCustomSpec store && !sessionUnlocked

/-- The security-state invariant of the spec: locked only with security
enabled and a custom 4-digit pin configured. -/
def securityInvariant (s : SecurityState) : Prop :=
  s.locked = true → s.enabled = true ∧ pinConfigured s.pin = true

/-- The secure-store keys named by the spec. -/
def specSecureKey (k : String) : Prop :=
  k = "security_enabled" ∨ k = "security_pin" ∨ k = "security_secret" ∨
    (∃ p, k = "apikey_" ++ p) ∨ (∃ p, k = "baseurl_" ++ p)

/-- The localStorage keys named by the spec. -/
def specLocalKeys : List String := ["projects", "documents", "settings", "theme"]

/-!  Helper lemmas. -/

theorem decodeList_map {α : Type} (f : Json → Option α) (g : α → Json)
    (h : ∀ a, f (g a) = some a) (l : List α) : decodeList f (l.map g) = some l := by
  induction l with
  | nil => rfl
  | cons a t ih => simp [decodeList, h, ih]

theorem jAsStrList_encode (l : List String) :
    jAsStrList (Json.jarr (l.map Json.jstr)) = some l := by
  simpa [jAsStrList] using decodeList_map jAsStr Json.jstr (fun _ => rfl) l

theorem providerConfig_decode_encode (pc : ProviderConfig) :
    ProviderConfig.decode pc.encode = some pc := by
  obtain ⟨ms, bu, ak⟩ := pc
  cases bu <;> cases ak <;>
    simp [ProviderConfig.encode, ProviderConfig.decode, jlookup, jAsStr,
      jAsStrList_encode, List.lookup]

theorem decodeProviders_encode (ps : List (String × ProviderConfig)) :
    decodeProviders (Json.jobj (ps.map fun e => (e.1, e.2.encode))) = some ps := by
  simp only [decodeProviders]
  induction ps with
  | nil => rfl
  | cons a t ih => simp [decodeProviderList, providerConfig_decode_encode, ih]

theorem decodeSettings_encode (s : SettingsState) :
    decodeSettings (encodeSettings s) = some s := by
  simp [encodeSettings, decodeSettings, jlookup, jAsStr, decodeProviders_encode,
    List.lookup]

theorem project_decode_encode (p : Project) : Project.decode p.encode = some p := rfl

theorem decodeProjects_encode (ps : List Project) :
    decodeProjects (encodeProjects ps) = some ps := by
  simp only [encodeProjects, decodeProjects]
  exact decodeList_map _ _ project_decode_encode ps

theorem document_decode_encode (d : Document) : Document.decode d.encode = some d := rfl

theorem decodeDocuments_encode (ds : List Document) :
    decodeDocuments (encodeDocuments ds) = some ds := by
  simp only [encodeDocuments, decodeDocuments]
  exact decodeList_map _ _ document_decode_encode ds

theorem lookup_updateProvider (ps : List (String × ProviderConfig)) (q p : String)
    (f : ProviderConfig → ProviderConfig) :
    List.lookup p (updateProvider ps q f) =
      if p = q then (List.lookup p ps).map f else List.lookup p ps := by
  induction ps with
  | nil => simp [updateProvider]
  | cons a t ih =>
    obtain ⟨k, v⟩ := a
    simp only [updateProvider, List.map_cons] at ih ⊢
    by_cases hkq : k = q
    · subst hkq
      by_cases hpk : p = k
      · subst hpk
        simp [List.lookup_cons]
      · have hb : (p == k) = false := by simp [hpk]
        simp [List.lookup_cons, hb, hpk, ih]
    · by_cases hpk : p = k
      · subst hpk
        simp [List.lookup_cons, hkq]
      · have hb : (p == k) = false := by simp [hpk]
        simp [List.lookup_cons, hb, hkq, ih]

theorem lookup_stripStep_ne (s : SettingsState) (q p : String) (h : p ≠ q) :
    List.lookup p (stripStep s q).providers = List.lookup p s.providers := by
  unfold stripStep
  cases hl : List.lookup q s.providers with
  | none => rfl
  | some pc =>
    by_cases ht : truthyKey pc.apiKey = true
    · simp [ht, lookup_updateProvider, h]
    · simp [ht]

theorem lookup_stripStep_self (s : SettingsState) (p : String) :
    List.lookup p (stripStep s p).providers =
      (List.lookup p s.providers).map
        (fun pc => if truthyKey pc.apiKey then { pc with apiKey := none } else pc) := by
  unfold stripStep
  cases hl : List.lookup p s.providers with
  | none => simp [hl]
  | some pc =>
    by_cases ht : truthyKey pc.apiKey = true
    · simp [ht, lookup_updateProvider, hl]
    · rw [Bool.not_eq_true] at ht
      simp [ht, hl]

theorem stripStep_id (s : SettingsState) (p : String)
    (h : truthyKey ((List.lookup p s.providers).bind ProviderConfig.apiKey) = false) :
    stripStep s p = s := by
  unfold stripStep
  cases hl : List.lookup p s.providers with
  | none => rfl
  | some pc =>
    rw [hl, Option.some_bind] at h
    simp [h]

theorem stripApiKeys_of_not_migrated (s : SettingsState) (h : anyMigrated s = false) :
    stripApiKeys s = s := by
  rw [anyMigrated, migratedProviders] at h
  simp only [List.any_eq_false, List.mem_cons, List.not_mem_nil] at h
  have h1 := h "openai" (by simp)
  have h2 := h "anthropic" (by simp)
  have h3 := h "mistral" (by simp)
  have h4 := h "gemini" (by simp)
  have h5 := h "openrouter" (by simp)
  simp only [Bool.not_eq_true] at h1 h2 h3 h4 h5
  show stripStep (stripStep (stripStep (stripStep (stripStep s "openai")
    "anthropic") "mistral") "gemini") "openrouter" = s
  rw [stripStep_id s "openai" h1, stripStep_id s "anthropic" h2,
    stripStep_id s "mistral" h3, stripStep_id s "gemini" h4,
    stripStep_id s "openrouter" h5]

theorem pinConfigured_eq_custom (p : String) :
    pinConfigured p = (p.length == 4 && p != "1234") := by
  rw [pinConfigured]
  by_cases h : p = ""
  · subst h; rfl
  · have he : p.isEmpty = false := by
      rw [Bool.eq_false_iff]
      intro hc
      exact h ((String.isEmpty_iff p).mp hc)
    cases hne : (p != "1234") <;> cases hlen : (p.length == 4) <;> simp [he, hne, hlen]

/-!  Concrete fixtures used by witnesses and counterexamples. -/

def emptySecure : SecureStore := fun _ => none

def emptyLocal : LocalStorage := fun _ => none

def emptySession : SessionStorage := fun _ => none

/-- A store with security enabled and a custom 4-digit pin. -/
def exCustomStore : SecureStore := fun k =>
  if k = "security_enabled" then some (SVal.bool true)
  else if k = "security_pin" then some (SVal.str "4321")
  else none

/-- A store with a pin and secret but no security_enabled key. -/
def exPinOnlyStore : SecureStore := fun k =>
  if k = "security_pin" then some (SVal.str "9999")
  else if k = "security_secret" then some (SVal.str "XYZ1-XYZ2-XYZ3")
  else none

/-- A baseline application state with every store empty. -/
def exBaseState : AppPersist :=
  { projects := []
    documents := []
    settings := defaultSettings
    security := DEFAULT_SECURITY
    securityLoaded := true
    isDark := false
    lsStore := emptyLocal
    ssStore := emptySession
    secStore := emptySecure }

/-- A state whose security is enabled with a custom pin. -/
def exCustomState : AppPersist :=
  { exBaseState with
    security := { enabled := true, pin := "4321", secret := "AAAA-BBBB-CCCC", locked := false } }

/-!  Claim theorems. -/

/-- C6: every secure-storage read operation catches the underlying store
failure and returns a hard-coded default instead of throwing: getApiKey and
getBaseUrl return null, hasApiKey returns false, and loadSecurityState
returns the default SecurityState. -/
theorem c6_reads_default_on_failure :
    ∀ (e : Unit) (provider : String),
      getApiKey (Except.error e) provider = none ∧
      getBaseUrl (Except.error e) provider = none ∧
      hasApiKey (Except.error e) provider = false ∧
      loadSecurityState (Except.error e) = DEFAULT_SECURITY := by
  intro e provider
  exact ⟨rfl, rfl, rfl, rfl⟩

/-- C9: when the store operations succeed, hasApiKey is true exactly when
getApiKey returns a non-null value; both consult the key apikey_provider. -/
theorem c9_hasApiKey_iff_getApiKey :
    ∀ (store : SecureStore) (provider : String),
      hasApiKey (Except.ok store) provider = (getApiKey (Except.ok store) provider).isSome := by
  intro store provider
  simp only [hasApiKey, getApiKey]
  cases h : store ("apikey_" ++ provider) with
  | none => simp
  | some v => cases v <;> simp

/-- C10: when the secure store has no security_enabled key, loadSecurityState
returns the complete default security state, regardless of any security_pin
or security_secret values still present. -/
theorem c10_default_without_enabled_key :
    ∀ (store : SecureStore), store "security_enabled" = none →
      loadSecurityState (Except.ok store) = DEFAULT_SECURITY := by
  intro store h
  simp only [loadSecurityState, svGetBool, h]

/-- C10 witness: a pin and a secret are present but security_enabled is
absent, and the load yields the full default record. -/
theorem c10_default_without_enabled_key_witness :
    exPinOnlyStore "security_enabled" = none ∧
      loadSecurityState (Except.ok exPinOnlyStore) = DEFAULT_SECURITY :=
  ⟨by decide, c10_default_without_enabled_key exPinOnlyStore (by decide)⟩

/-- C3: saveSecurityState writes exactly security_enabled, security_pin and
security_secret from the given record, every other key is unchanged, and the
locked flag is never persisted (the result does not depend on it). -/
theorem c3_saveSecurityState_frame :
    ∀ (security : SecurityState) (store : SecureStore),
      saveSecurityState security store "security_enabled" = some (SVal.bool security.enabled) ∧
      saveSecurityState security store "security_pin" = some (SVal.str security.pin) ∧
      saveSecurityState security store "security_secret" = some (SVal.str security.secret) ∧
      (∀ k, k ≠ "security_enabled" → k ≠ "security_pin" → k ≠ "security_secret" →
        saveSecurityState security store k = store k) ∧
      (∀ b, saveSecurityState { security with locked := b } store =
        saveSecurityState security store) := by
  intro security store
  refine ⟨rfl, rfl, rfl, ?_, fun b => rfl⟩
  intro k h1 h2 h3
  simp [saveSecurityState, svSet, h1, h2, h3]

/-- C3 witness: saving the default record into the empty store sets the
enabled key and leaves an unrelated key absent. -/
theorem c3_saveSecurityState_frame_witness :
    saveSecurityState DEFAULT_SECURITY emptySecure "security_enabled"
        = some (SVal.bool false) ∧
      saveSecurityState DEFAULT_SECURITY emptySecure "apikey_openai" = none := by
  obtain ⟨h1, _, _, h4, _⟩ := c3_saveSecurityState_frame DEFAULT_SECURITY emptySecure
  exact ⟨h1, h4 "apikey_openai" (by decide) (by decide) (by decide)⟩

/-- C2: at load time the locked flag is recomputed, not read from storage:
it equals enabled, and the stored pin is a 4-character string different from
1234, and the session is not marked unlocked. -/
theorem loadSecurityState_ok (store : SecureStore) :
    loadSecurityState (Except.ok store) =
      match svGetBool store "security_enabled" with
      | none => DEFAULT_SECURITY
      | some enabled =>
        { enabled := enabled
          pin := (svGetStr store "security_pin").getD DEFAULT_SECURITY.pin
          secret := (svGetStr store "security_secret").getD DEFAULT_SECURITY.secret
          locked := enabled } := rfl

theorem pinConfigured_default : pinConfigured "1234" = false := rfl

theorem c2_locked_recomputed_at_load :
    ∀ (store : SecureStore) (sessionUnlocked : Bool),
      (loadSecurity store sessionUnlocked).locked = lockedRecomputeSpec store sessionUnlocked := by
  intro store sess
  cases he : svGetBool store "security_enabled" with
  | none =>
    have hls : loadSecurityState (Except.ok store) = DEFAULT_SECURITY := by
      rw [loadSecurityState_ok, he]
    simp [loadSecurity, hls, lockedRecomputeSpec, pinIsCustomSpec, he,
      DEFAULT_SECURITY, pinConfigured]
  | some b =>
    cases hp : svGetStr store "security_pin" with
    | none =>
      have hls : loadSecurityState (Except.ok store) =
          { enabled := b, pin := "1234"
            secret := (svGetStr store "security_secret").getD DEFAULT_SECURITY.secret
            locked := b } := by
        rw [loadSecurityState_ok, he, hp]
        rfl
      simp [loadSecurity, hls, lockedRecomputeSpec, pinIsCustomSpec, he, hp,
        pinConfigured_default]
    | some p =>
      have hls : loadSecurityState (Except.ok store) =
          { enabled := b, pin := p
            secret := (svGetStr store "security_secret").getD DEFAULT_SECURITY.secret
            locked := b } := by
        rw [loadSecurityState_ok, he, hp]
        rfl
      simp only [loadSecurity, hls, lockedRecomputeSpec, pinIsCustomSpec, he, hp,
        Option.getD_some]
      rw [pinConfigured_eq_custom]
      cases hc : (b && (p.length == 4 && p != "1234") && !sess) <;> simp [hc]

/-- C5: both classifiers assign each message exactly one of the five spec
categories by substring match, and the headline and remediation tip list
each widget attaches are functions of that category alone (the About modal
never reaches the restart category; such messages classify as generic). -/
theorem c5_error_classifiers (m : String) :
    bannerCategory m ∈ [ErrCategory.network, ErrCategory.verification,
        ErrCategory.permission, ErrCategory.restart, ErrCategory.generic] ∧
    aboutCategory m ∈ [ErrCategory.network, ErrCategory.verification,
        ErrCategory.permission, ErrCategory.restart, ErrCategory.generic] ∧
    (parseError m).message = bannerMessage (bannerCategory m) ∧
    (parseError m).troubleshooting = bannerTips (bannerCategory m) ∧
    (parseInstallError m).message = aboutMessage (aboutCategory m) ∧
    (parseInstallError m).tips = aboutTips (aboutCategory m) := by
  refine ⟨?_, ?_, ?_⟩
  · cases h : bannerCategory m <;> simp
  · cases h : aboutCategory m <;> simp
  · unfold parseError parseInstallError bannerCategory aboutCategory
    split_ifs <;>
      simp [bannerMessage, bannerTips, aboutMessage, aboutTips]

/-- C1 counterexample: lockApp does not preserve the claimed invariant: from
the default state (security disabled, default pin) it produces a state that
is locked with security disabled. -/
theorem c1_lockApp_counterexample :
    exBaseState.security.locked = false ∧
    (lockApp exBaseState).security.locked = true ∧
    (lockApp exBaseState).security.enabled = false ∧
    pinConfigured (lockApp exBaseState).security.pin = false :=
  ⟨rfl, rfl, rfl, rfl⟩

/-- C1 amended: loading at startup establishes the invariant (locked only
with security enabled and a custom 4-digit pin) and unlockApp preserves it;
lockApp sets locked unconditionally, so it preserves the invariant only when
the pre-state already has security enabled and a custom pin configured. -/
theorem c1_security_invariant :
    (∀ (store : SecureStore) (sessionUnlocked : Bool),
      securityInvariant (loadSecurity store sessionUnlocked)) ∧
    (∀ st : AppPersist, securityInvariant (unlockApp st).security) ∧
    (∀ st : AppPersist, st.security.enabled = true →
      pinConfigured st.security.pin = true →
      securityInvariant (lockApp st).security) := by
  refine ⟨?_, ?_, ?_⟩
  · intro store sess
    unfold loadSecurity securityInvariant
    by_cases hc : ((loadSecurityState (Except.ok store)).enabled
        && pinConfigured (loadSecurityState (Except.ok store)).pin && !sess) = true
    · rw [if_pos hc]
      intro _
      simp only [Bool.and_eq_true] at hc
      exact ⟨hc.1.1, hc.1.2⟩
    · rw [if_neg hc]
      intro hfalse
      exact absurd hfalse (by simp)
  · intro st hfalse
    exact absurd hfalse (by simp [unlockApp])
  · intro st he hp _
    exact ⟨he, hp⟩

/-- C1 witness: with security enabled and the custom pin 4321 in the store,
loading yields a locked state whose invariant consequences hold, and lockApp
from an enabled custom-pin state keeps the invariant satisfiable. -/
theorem c1_security_invariant_witness :
    ((loadSecurity exCustomStore false).enabled = true ∧
      pinConfigured (loadSecurity exCustomStore false).pin = true) ∧
    ((lockApp exCustomState).security.enabled = true ∧
      pinConfigured (lockApp exCustomState).security.pin = true) := by
  obtain ⟨h1, _, h3⟩ := c1_security_invariant
  exact ⟨h1 exCustomStore false (by decide),
    h3 exCustomState (by decide) (by decide) (by decide)⟩

/-- A settings value with a plaintext API key, used as a witness input. -/
def exSettings : SettingsState :=
  { defaultProvider := "Mistral"
    defaultModel := ""
    providers := [("openai", { models := [], baseUrl := none, apiKey := some "sk-test" })] }

/-- C4: persisting a settings value under the settings key and reloading at
application start (after the one-time migrateApiKeys pass) yields the
pre-save value minus exactly the apiKey fields the migration removes: the
looked-up entry of each of the five migrated providers loses its truthy
apiKey, and every other provider entry is untouched. -/
theorem c4_settings_roundtrip :
    ∀ (ls : LocalStorage) (sec : SecureStore) (s : SettingsState),
      initSettings ((migrateApiKeys (lsSet ls "settings" (encodeSettings s)) sec).fst)
          = stripApiKeys s ∧
      (∀ p, p ∈ migratedProviders →
        List.lookup p (stripApiKeys s).providers =
          (List.lookup p s.providers).map
            (fun pc => if truthyKey pc.apiKey then { pc with apiKey := none } else pc)) ∧
      (∀ p, p ∉ migratedProviders →
        List.lookup p (stripApiKeys s).providers = List.lookup p s.providers) := by
  intro ls sec s
  refine ⟨?_, ?_, ?_⟩
  · have hset : (lsSet ls "settings" (encodeSettings s)) "settings"
        = some (encodeSettings s) := by simp [lsSet]
    simp only [migrateApiKeys, hset, decodeSettings_encode]
    by_cases hm : anyMigrated s = true
    · simp [hm, initSettings, lsSet, decodeSettings_encode]
    · rw [Bool.not_eq_true] at hm
      simp [hm, initSettings, hset, decodeSettings_encode,
        stripApiKeys_of_not_migrated s hm]
  · intro p hp
    simp only [migratedProviders, List.mem_cons, List.not_mem_nil, or_false] at hp
    show List.lookup p (stripStep (stripStep (stripStep (stripStep
      (stripStep s "openai") "anthropic") "mistral") "gemini") "openrouter").providers = _
    rcases hp with rfl | rfl | rfl | rfl | rfl
    · rw [lookup_stripStep_ne _ "openrouter" _ (by decide),
        lookup_stripStep_ne _ "gemini" _ (by decide),
        lookup_stripStep_ne _ "mistral" _ (by decide),
        lookup_stripStep_ne _ "anthropic" _ (by decide),
        lookup_stripStep_self]
    · rw [lookup_stripStep_ne _ "openrouter" _ (by decide),
        lookup_stripStep_ne _ "gemini" _ (by decide),
        lookup_stripStep_ne _ "mistral" _ (by decide),
        lookup_stripStep_self,
        lookup_stripStep_ne _ "openai" _ (by decide)]
    · rw [lookup_stripStep_ne _ "openrouter" _ (by decide),
        lookup_stripStep_ne _ "gemini" _ (by decide),
        lookup_stripStep_self,
        lookup_stripStep_ne _ "anthropic" _ (by decide),
        lookup_stripStep_ne _ "openai" _ (by decide)]
    · rw [lookup_stripStep_ne _ "openrouter" _ (by decide),
        lookup_stripStep_self,
        lookup_stripStep_ne _ "mistral" _ (by decide),
        lookup_stripStep_ne _ "anthropic" _ (by decide),
        lookup_stripStep_ne _ "openai" _ (by decide)]
    · rw [lookup_stripStep_self,
        lookup_stripStep_ne _ "gemini" _ (by decide),
        lookup_stripStep_ne _ "mistral" _ (by decide),
        lookup_stripStep_ne _ "anthropic" _ (by decide),
        lookup_stripStep_ne _ "openai" _ (by decide)]
  · intro p hp
    simp only [migratedProviders, List.mem_cons, List.not_mem_nil, or_false] at hp
    push_neg at hp
    obtain ⟨h1, h2, h3, h4, h5⟩ := hp
    show List.lookup p (stripStep (stripStep (stripStep (stripStep
      (stripStep s "openai") "anthropic") "mistral") "gemini") "openrouter").providers = _
    rw [lookup_stripStep_ne _ "openrouter" _ h5,
      lookup_stripStep_ne _ "gemini" _ h4,
      lookup_stripStep_ne _ "mistral" _ h3,
      lookup_stripStep_ne _ "anthropic" _ h2,
      lookup_stripStep_ne _ "openai" _ h1]

/-- C4 witness: a settings value with a plaintext openai key round-trips to
itself minus that key; the openai entry is stripped and the ollama entry is
untouched. -/
theorem c4_settings_roundtrip_witness :
    initSettings ((migrateApiKeys (lsSet emptyLocal "settings" (encodeSettings exSettings))
        emptySecure).fst) = stripApiKeys exSettings ∧
    List.lookup "openai" (stripApiKeys exSettings).providers =
      (List.lookup "openai" exSettings.providers).map
        (fun pc => if truthyKey pc.apiKey then { pc with apiKey := none } else pc) ∧
    List.lookup "ollama" (stripApiKeys exSettings).providers =
      List.lookup "ollama" exSettings.providers := by
  obtain ⟨h1, h2, h3⟩ := c4_settings_roundtrip emptyLocal emptySecure exSettings
  exact ⟨h1, h2 "openai" (by decide), h3 "ollama" (by decide)⟩

/-- A state holding a changed security record before the initial security
load has completed. -/
def exPendingState : AppPersist :=
  { exBaseState with
    securityLoaded := false
    security := { enabled := true, pin := "9999", secret := "NEW1-NEW2-NEW3", locked := false } }

/-- C8 counterexample: the security save effect is not unconditional: before
the initial load completes (securityLoaded false) a changed security record
is left entirely unpersisted. -/
theorem c8_security_effect_counterexample :
    securitySaveEffect exPendingState = exPendingState ∧
    exPendingState.security.pin = "9999" ∧
    exPendingState.secStore "security_pin" = none :=
  ⟨rfl, rfl, rfl⟩

/-- C8 amended: the projects, documents, settings and theme effects always
write the full serialized snapshot of the entire entity (which decodes back
to it), and the security effect writes the full snapshot whenever the
initial security load has completed; only the pre-load window is excluded. -/
theorem c8_full_snapshot_persistence :
    ∀ st : AppPersist,
      ((persistProjects st).lsStore "projects" = some (encodeProjects st.projects) ∧
        decodeProjects (encodeProjects st.projects) = some st.projects) ∧
      ((persistDocuments st).lsStore "documents" = some (encodeDocuments st.documents) ∧
        decodeDocuments (encodeDocuments st.documents) = some st.documents) ∧
      ((persistSettings st).lsStore "settings" = some (encodeSettings st.settings) ∧
        decodeSettings (encodeSettings st.settings) = some st.settings) ∧
      (persistTheme st).lsStore "theme"
          = some (Json.jstr (if st.isDark then "dark" else "light")) ∧
      (st.securityLoaded = true →
        (securitySaveEffect st).secStore "security_enabled"
            = some (SVal.bool st.security.enabled) ∧
        (securitySaveEffect st).secStore "security_pin"
            = some (SVal.str st.security.pin) ∧
        (securitySaveEffect st).secStore "security_secret"
            = some (SVal.str st.security.secret)) := by
  intro st
  refine ⟨⟨?_, decodeProjects_encode _⟩, ⟨?_, decodeDocuments_encode _⟩,
    ⟨?_, decodeSettings_encode _⟩, ?_, ?_⟩
  · simp [persistProjects, lsSet]
  · simp [persistDocuments, lsSet]
  · simp [persistSettings, lsSet]
  · simp [persistTheme, lsSet]
  · intro h
    simp only [securitySaveEffect, h, if_true]
    exact ⟨rfl, rfl, rfl⟩

/-- C8 witness: in a loaded state with a custom security record, the
security effect persists all three fields, and the settings snapshot decodes
back to the in-memory settings. -/
theorem c8_full_snapshot_persistence_witness :
    (securitySaveEffect exCustomState).secStore "security_pin"
        = some (SVal.str "4321") ∧
    decodeSettings (encodeSettings exCustomState.settings) = some exCustomState.settings := by
  obtain ⟨_, _, ⟨_, hs⟩, _, hsec⟩ := c8_full_snapshot_persistence exCustomState
  exact ⟨(hsec rfl).2.1, hs⟩

/-- The session-dependent load composite: loadSecurity with the session
unlocked flag read from sessionStorage (getItem truthiness). -/
def loadSecurityFromStores (sec : SecureStore) (ss : SessionStorage) : SecurityState :=
  loadSecurity sec (ssTruthy (ss "unlocked"))

/-- A localStorage still holding the legacy security cell. -/
def lsLegacy : LocalStorage := fun k =>
  if k = "security" then some (Json.jstr "legacy") else none

/-- C7 counterexample: migrateSecurityFromLocalStorage removes the legacy
localStorage key security, which is outside the key set listed by the
spec, so the program does touch a storage key outside that set. -/
theorem c7_key_set_counterexample :
    lsLegacy "security" = some (Json.jstr "legacy") ∧
    migrateSecurityFromLocalStorage lsLegacy "security" = none ∧
    "security" ∉ specLocalKeys :=
  ⟨rfl, rfl, by decide⟩

theorem migrateWriteStep_frame (s : SettingsState) (acc : SecureStore) (p k : String)
    (h : k ≠ "apikey_" ++ p) : migrateWriteStep s acc p k = acc k := by
  unfold migrateWriteStep
  cases List.lookup p s.providers with
  | none => rfl
  | some pc =>
    by_cases ht : truthyKey pc.apiKey = true
    · simp [ht, saveApiKey, svSet, h]
    · simp [ht]

theorem migrateSecureWrites_frame (s : SettingsState) (sec : SecureStore) (k : String)
    (h : k ∉ ["apikey_openai", "apikey_anthropic", "apikey_mistral",
      "apikey_gemini", "apikey_openrouter"]) :
    migrateSecureWrites s sec k = sec k := by
  simp only [List.mem_cons, List.not_mem_nil, or_false] at h
  push_neg at h
  obtain ⟨h1, h2, h3, h4, h5⟩ := h
  show migrateWriteStep s (migrateWriteStep s (migrateWriteStep s (migrateWriteStep s
    (migrateWriteStep s sec "openai") "anthropic") "mistral") "gemini") "openrouter" k = sec k
  rw [migrateWriteStep_frame _ _ _ _ h5, migrateWriteStep_frame _ _ _ _ h4,
    migrateWriteStep_frame _ _ _ _ h3, migrateWriteStep_frame _ _ _ _ h2,
    migrateWriteStep_frame _ _ _ _ h1]

/-- C7 amended: every storage key the program addresses is in the spec key
set extended with the legacy localStorage key security (which
migrateSecurityFromLocalStorage removes): each write operation changes only
its named keys, clearSecureStorage erases the secure store wholesale, and
each load operation depends only on its named keys. -/
theorem c7_key_set :
    (∀ (st : AppPersist) (k : String), k ≠ "projects" →
      (persistProjects st).lsStore k = st.lsStore k) ∧
    (∀ (st : AppPersist) (k : String), k ≠ "documents" →
      (persistDocuments st).lsStore k = st.lsStore k) ∧
    (∀ (st : AppPersist) (k : String), k ≠ "settings" →
      (persistSettings st).lsStore k = st.lsStore k) ∧
    (∀ (st : AppPersist) (k : String), k ≠ "theme" →
      (persistTheme st).lsStore k = st.lsStore k) ∧
    (∀ (st : AppPersist) (k : String), k ≠ "unlocked" →
      (unlockApp st).ssStore k = st.ssStore k) ∧
    (∀ (st : AppPersist) (k : String), k ≠ "unlocked" →
      (lockApp st).ssStore k = st.ssStore k) ∧
    (∀ (p v : String) (store : SecureStore) (k : String), k ≠ "apikey_" ++ p →
      saveApiKey p v store k = store k) ∧
    (∀ (p : String) (store : SecureStore) (k : String), k ≠ "apikey_" ++ p →
      deleteApiKey p store k = store k) ∧
    (∀ (p v : String) (store : SecureStore) (k : String), k ≠ "baseurl_" ++ p →
      saveBaseUrl p v store k = store k) ∧
    (∀ (security : SecurityState) (store : SecureStore) (k : String),
      k ≠ "security_enabled" → k ≠ "security_pin" → k ≠ "security_secret" →
      saveSecurityState security store k = store k) ∧
    (∀ (store : SecureStore) (k : String),
      k ≠ "security_enabled" → k ≠ "security_pin" → k ≠ "security_secret" →
      clearSecurityState store k = store k) ∧
    (∀ (store : SecureStore) (k : String), clearSecureStorage store k = none) ∧
    (∀ (ls : LocalStorage) (sec : SecureStore) (k : String), k ≠ "settings" →
      (migrateApiKeys ls sec).fst k = ls k) ∧
    (∀ (ls : LocalStorage) (sec : SecureStore) (k : String),
      k ∉ ["apikey_openai", "apikey_anthropic", "apikey_mistral",
        "apikey_gemini", "apikey_openrouter"] →
      (migrateApiKeys ls sec).snd k = sec k) ∧
    (∀ (ls : LocalStorage) (k : String), k ≠ "security" →
      migrateSecurityFromLocalStorage ls k = ls k) ∧
    (∀ p : String, specSecureKey ("apikey_" ++ p) ∧ specSecureKey ("baseurl_" ++ p)) ∧
    (specSecureKey "security_enabled" ∧ specSecureKey "security_pin" ∧
      specSecureKey "security_secret" ∧ "projects" ∈ specLocalKeys ∧
      "documents" ∈ specLocalKeys ∧ "settings" ∈ specLocalKeys ∧
      "theme" ∈ specLocalKeys) ∧
    (∀ ls ls' : LocalStorage, ls "projects" = ls' "projects" →
      initProjects ls = initProjects ls') ∧
    (∀ ls ls' : LocalStorage, ls "documents" = ls' "documents" →
      initDocuments ls = initDocuments ls') ∧
    (∀ ls ls' : LocalStorage, ls "settings" = ls' "settings" →
      initSettings ls = initSettings ls') ∧
    (∀ (ls ls' : LocalStorage) (d : Bool), ls "theme" = ls' "theme" →
      initTheme ls d = initTheme ls' d) ∧
    (∀ (sec sec' : SecureStore) (ss ss' : SessionStorage),
      sec "security_enabled" = sec' "security_enabled" →
      sec "security_pin" = sec' "security_pin" →
      sec "security_secret" = sec' "security_secret" →
      ss "unlocked" = ss' "unlocked" →
      loadSecurityFromStores sec ss = loadSecurityFromStores sec' ss') := by
  refine ⟨?_, ?_, ?_, ?_, ?_, ?_, ?_, ?_, ?_, ?_, ?_, ?_, ?_, ?_, ?_, ?_, ?_,
    ?_, ?_, ?_, ?_, ?_⟩
  · intro st k h; simp [persistProjects, lsSet, h]
  · intro st k h; simp [persistDocuments, lsSet, h]
  · intro st k h; simp [persistSettings, lsSet, h]
  · intro st k h; simp [persistTheme, lsSet, h]
  · intro st k h; simp [unlockApp, ssSet, h]
  · intro st k h; simp [lockApp, ssRemove, h]
  · intro p v store k h; simp [saveApiKey, svSet, h]
  · intro p store k h; simp [deleteApiKey, svDelete, h]
  · intro p v store k h; simp [saveBaseUrl, svSet, h]
  · intro security store k h1 h2 h3; simp [saveSecurityState, svSet, h1, h2, h3]
  · intro store k h1 h2 h3; simp [clearSecurityState, svDelete, h1, h2, h3]
  · intro store k; rfl
  · intro ls sec k h
    unfold migrateApiKeys
    split
    · rfl
    · split
      · rfl
      · split <;> simp [lsSet, h]
  · intro ls sec k h
    unfold migrateApiKeys
    split
    · rfl
    · split
      · rfl
      · exact migrateSecureWrites_frame _ sec k h
  · intro ls k h
    unfold migrateSecurityFromLocalStorage
    cases hls : ls "security" with
    | none => rfl
    | some j => simp [lsRemove, h]
  · intro p
    exact ⟨Or.inr (Or.inr (Or.inr (Or.inl ⟨p, rfl⟩))),
      Or.inr (Or.inr (Or.inr (Or.inr ⟨p, rfl⟩)))⟩
  · exact ⟨Or.inl rfl, Or.inr (Or.inl rfl), Or.inr (Or.inr (Or.inl rfl)),
      by decide, by decide, by decide, by decide⟩
  · intro ls ls' h
    unfold initProjects
    rw [h]
  · intro ls ls' h
    unfold initDocuments
    rw [h]
  · intro ls ls' h
    unfold initSettings
    rw [h]
  · intro ls ls' d h
    unfold initTheme
    rw [h]
  · intro sec sec' ss ss' h1 h2 h3 h4
    have e1 : svGetBool sec "security_enabled" = svGetBool sec' "security_enabled" := by
      unfold svGetBool; rw [h1]
    have e2 : svGetStr sec "security_pin" = svGetStr sec' "security_pin" := by
      unfold svGetStr; rw [h2]
    have e3 : svGetStr sec "security_secret" = svGetStr sec' "security_secret" := by
      unfold svGetStr; rw [h3]
    unfold loadSecurityFromStores loadSecurity
    rw [loadSecurityState_ok, loadSecurityState_ok, e1, e2, e3, h4]

/-- C7 witness: each frame condition instantiated at concrete stores and
concrete unrelated keys, and each read operation evaluated on two stores
agreeing on its keys. -/
theorem c7_key_set_witness :
    (persistProjects exBaseState).lsStore "theme" = exBaseState.lsStore "theme" ∧
    (persistDocuments exBaseState).lsStore "theme" = exBaseState.lsStore "theme" ∧
    (persistSettings exBaseState).lsStore "theme" = exBaseState.lsStore "theme" ∧
    (persistTheme exBaseState).lsStore "projects" = exBaseState.lsStore "projects" ∧
    (unlockApp exBaseState).ssStore "other" = exBaseState.ssStore "other" ∧
    (lockApp exBaseState).ssStore "other" = exBaseState.ssStore "other" ∧
    saveApiKey "openai" "K" emptySecure "security_pin" = emptySecure "security_pin" ∧
    deleteApiKey "openai" emptySecure "security_pin" = emptySecure "security_pin" ∧
    saveBaseUrl "ollama" "http://localhost:11434" emptySecure "security_pin"
        = emptySecure "security_pin" ∧
    saveSecurityState DEFAULT_SECURITY emptySecure "baseurl_ollama"
        = emptySecure "baseurl_ollama" ∧
    clearSecurityState emptySecure "baseurl_ollama" = emptySecure "baseurl_ollama" ∧
    (migrateApiKeys emptyLocal emptySecure).fst "projects" = emptyLocal "projects" ∧
    (migrateApiKeys emptyLocal emptySecure).snd "security_pin"
        = emptySecure "security_pin" ∧
    migrateSecurityFromLocalStorage lsLegacy "projects" = lsLegacy "projects" ∧
    specSecureKey ("apikey_" ++ "openai") ∧
    initProjects emptyLocal = initProjects lsLegacy ∧
    initDocuments emptyLocal = initDocuments lsLegacy ∧
    initSettings emptyLocal = initSettings lsLegacy ∧
    initTheme emptyLocal true = initTheme lsLegacy true ∧
    loadSecurityFromStores exCustomStore emptySession
        = loadSecurityFromStores (svSet exCustomStore "apikey_x" (SVal.str "v"))
            (ssSet emptySession "other" "1") := by
  obtain ⟨h1, h2, h3, h4, h5, h6, h7, h8, h9, h10, h11, _h12, h13, h14, h15, h16,
    _h17, h18, h19, h20, h21, h22⟩ := c7_key_set
  exact ⟨h1 exBaseState "theme" (by decide),
    h2 exBaseState "theme" (by decide),
    h3 exBaseState "theme" (by decide),
    h4 exBaseState "projects" (by decide),
    h5 exBaseState "other" (by decide),
    h6 exBaseState "other" (by decide),
    h7 "openai" "K" emptySecure "security_pin" (by decide),
    h8 "openai" emptySecure "security_pin" (by decide),
    h9 "ollama" "http://localhost:11434" emptySecure "security_pin" (by decide),
    h10 DEFAULT_SECURITY emptySecure "baseurl_ollama" (by decide) (by decide) (by decide),
    h11 emptySecure "baseurl_ollama" (by decide) (by decide) (by decide),
    h13 emptyLocal emptySecure "projects" (by decide),
    h14 emptyLocal emptySecure "security_pin" (by decide),
    h15 lsLegacy "projects" (by decide),
    (h16 "openai").1,
    h18 emptyLocal lsLegacy rfl,
    h19 emptyLocal lsLegacy rfl,
    h20 emptyLocal lsLegacy rfl,
    h21 emptyLocal lsLegacy true rfl,
    h22 exCustomStore (svSet exCustomStore "apikey_x" (SVal.str "v"))
      emptySession (ssSet emptySession "other" "1") rfl rfl rfl rfl⟩
